import Mathlib

/-!
Shallow embedding of the ball-tracking controller in
src/op3_demo/src/soccer/ball_tracker.cpp (namespace robotis_op, class
BallTracker), together with theorems checking the specification's claims.

Modelling conventions:
  * C++ double is modelled by the real numbers.  Division follows Lean's
    convention that x / 0 = 0; every statement that depends on a division
    uses a nonzero divisor except where explicitly noted.
  * The member fields of the BallTracker object form the state record
    below; each C++ member function becomes a function from the state to
    a new state together with the list of messages it publishes, in
    publication order.
  * ros::Time bookkeeping (prev_time_, curr_time) is modelled by passing
    the elapsed time delta_time directly to processTracking.
  * The enum TrackingStatus from the header is modelled as an inductive
    type; its numeric values are never used by the translated code.
  * count_not_found_ (a C++ int that is only ever reset to 0 or
    incremented) is modelled as a natural number.
-/

namespace robotis_op

/-- One detected circle: normalized image coordinates x, y and the size
field z (the code stores candidates in a geometry_msgs point whose z
carries the radius / size). -/
structure Point3 where
  x : ℝ
  y : ℝ
  z : ℝ

/-- The tracking status enum from the header: NotFound, Waiting, Found. -/
inductive TrackingStatus where
  | NotFound
  | Waiting
  | Found
deriving DecidableEq

/-- Outbound messages of the tracker: a head joint angle offset
(pan, tilt) on the set_joint_states_offset topic, or the "scan" string
on the scan_command topic. -/
inductive Command where
  | AngleOffset (pan tilt : ℝ)
  | ScanRequest

/-- The member fields of the BallTracker object. -/
structure BallTracker where
  use_head_scan_ : Bool
  count_not_found_ : ℕ
  on_tracking_ : Bool
  current_ball_pan_ : ℝ
  current_ball_tilt_ : ℝ
  current_ball_bottom_ : ℝ
  tracking_status_ : TrackingStatus
  ball_position_ : Point3

/-- FOV_WIDTH constant from the constructor initializer list:
26.4 * M_PI / 180. -/
noncomputable def FOV_WIDTH : ℝ := 26.4 * Real.pi / 180

/-- FOV_HEIGHT constant from the constructor initializer list:
21.6 * M_PI / 180. -/
noncomputable def FOV_HEIGHT : ℝ := 21.6 * Real.pi / 180

/-- NOT_FOUND_THRESHOLD constant from the constructor initializer list. -/
def NOT_FOUND_THRESHOLD : ℕ := 50

/-- WAITING_THRESHOLD constant from the constructor initializer list. -/
def WAITING_THRESHOLD : ℕ := 5

/-- The state established by the BallTracker constructor
(ball_position_ is a default-initialized point, i.e. all zero). -/
def initTracker : BallTracker :=
  { use_head_scan_ := true
    count_not_found_ := 0
    on_tracking_ := false
    current_ball_pan_ := 0
    current_ball_tilt_ := 0
    current_ball_bottom_ := 0
    tracking_status_ := TrackingStatus.NotFound
    ball_position_ := { x := 0, y := 0, z := 0 } }

/-- One iteration of the loop body of BallTracker::ballPositionCallback:
keep the held candidate when its z is at least the incoming one's,
otherwise replace it. -/
noncomputable def ballPosStep (held c : Point3) : Point3 :=
  if c.z ≤ held.z then held else c

/-- BallTracker::ballPositionCallback: fold the loop body over the
circles of the incoming message. -/
noncomputable def ballPositionCallback (s : BallTracker) (circles : List Point3) :
    BallTracker :=
  { s with ball_position_ := circles.foldl ballPosStep s.ball_position_ }

/-- BallTracker::publishHeadJoint: suppress the message when both axes
are inside the one-degree deadband, otherwise publish the pan/tilt
offset. -/
noncomputable def publishHeadJoint (pan tilt : ℝ) : List Command :=
  let min_angle := 1 * Real.pi / 180
  if |pan| < min_angle ∧ |tilt| < min_angle then []
  else [Command.AngleOffset pan tilt]

/-- BallTracker::scanBall: publish the scan command unless
use_head_scan_ is false. -/
def scanBall (s : BallTracker) : List Command :=
  if s.use_head_scan_ = false then [] else [Command.ScanRequest]

/-- BallTracker::startTracking. -/
def startTracking (s : BallTracker) : BallTracker :=
  { s with on_tracking_ := true }

/-- BallTracker::stopTracking: clear the mode flag, then publish a head
joint offset computed from the raw ball position by the
field-of-view mapping. -/
noncomputable def stopTracking (s : BallTracker) : BallTracker × List Command :=
  let x_error := -Real.arctan (s.ball_position_.x * Real.tan FOV_WIDTH)
  let y_error := -Real.arctan (s.ball_position_.y * Real.tan FOV_HEIGHT)
  ({ s with on_tracking_ := false }, publishHeadJoint x_error y_error)

/-- BallTracker::ballTrackerCommandCallback dispatch on the command
string. -/
noncomputable def ballTrackerCommandCallback (s : BallTracker) (data : String) :
    BallTracker × List Command :=
  if data = "start" then (startTracking s, [])
  else if data = "stop" then stopTracking s
  else if data = "toggle_start" then
    if s.on_tracking_ = false then (startTracking s, []) else stopTracking s
  else (s, [])

/-- The p_gain constant from processTracking. -/
noncomputable def p_gain : ℝ := 0.75

/-- The d_gain constant from processTracking. -/
noncomputable def d_gain : ℝ := 0.04

/-- The error / error_diff / error_target computation of processTracking
for one axis: error * p_gain + ((error - previous) / delta_time) * d_gain. -/
noncomputable def pdTarget (error prev delta_time : ℝ) : ℝ :=
  error * p_gain + ((error - prev) / delta_time) * d_gain

/-- The switch statement of processTracking that selects x_error,
y_error and ball_size for the Waiting and Found cases (the NotFound
case returns before these are used; its value is irrelevant and kept at
the initializers 0.0). -/
noncomputable def trackErrors (s : BallTracker) : TrackingStatus → ℝ × ℝ × ℝ
  | TrackingStatus.NotFound => (0, 0, 0)
  | TrackingStatus.Waiting =>
      (s.current_ball_pan_ * 0.7, s.current_ball_tilt_ * 0.7, s.current_ball_bottom_)
  | TrackingStatus.Found =>
      (-Real.arctan (s.ball_position_.x * Real.tan FOV_WIDTH),
       -Real.arctan (s.ball_position_.y * Real.tan FOV_HEIGHT),
       s.ball_position_.z)

/-- The tail of processTracking for the Waiting and Found cases: compute
the PD-filtered targets, publish the head joint message, store the raw
errors and ball size into the current_ball fields, clear
ball_position_.z, and record the tracking status. -/
noncomputable def trackEmit (s : BallTracker) (count : ℕ) (st : TrackingStatus)
    (delta_time : ℝ) : BallTracker × List Command × TrackingStatus :=
  let e := trackErrors s st
  ({ s with count_not_found_ := count
            current_ball_pan_ := e.1
            current_ball_tilt_ := e.2.1
            current_ball_bottom_ := e.2.2
            ball_position_ := { s.ball_position_ with z := 0 }
            tracking_status_ := st },
    publishHeadJoint (pdTarget e.1 s.current_ball_pan_ delta_time)
      (pdTarget e.2.1 s.current_ball_tilt_ delta_time),
    st)

/-- BallTracker::processTracking, as a function of the state and the
elapsed time since the previous tick.  Returns the new state, the
published messages in order, and the returned tracking status.  The
early return for the inactive mode does not touch tracking_status_ or
the current_ball fields; the early return of the NotFound case records
tracking_status_ but leaves ball_position_ and the current_ball fields
untouched. -/
noncomputable def processTracking (s : BallTracker) (delta_time : ℝ) :
    BallTracker × List Command × TrackingStatus :=
  if s.on_tracking_ = false then
    ({ s with ball_position_ := { s.ball_position_ with z := 0 }
              count_not_found_ := 0 },
      [], TrackingStatus.NotFound)
  else if s.ball_position_.z ≤ 0 then
    if s.count_not_found_ + 1 < WAITING_THRESHOLD then
      if s.tracking_status_ = TrackingStatus.Found ∨
          s.tracking_status_ = TrackingStatus.Waiting then
        trackEmit s (s.count_not_found_ + 1) TrackingStatus.Waiting delta_time
      else
        ({ s with count_not_found_ := s.count_not_found_ + 1
                  tracking_status_ := TrackingStatus.NotFound },
          [], TrackingStatus.NotFound)
    else if NOT_FOUND_THRESHOLD < s.count_not_found_ + 1 then
      ({ s with count_not_found_ := 0
                tracking_status_ := TrackingStatus.NotFound },
        scanBall s, TrackingStatus.NotFound)
    else
      ({ s with count_not_found_ := s.count_not_found_ + 1
                tracking_status_ := TrackingStatus.NotFound },
        [], TrackingStatus.NotFound)
  else
    trackEmit s 0 TrackingStatus.Found delta_time

/-- Iterate processTracking over a list of tick durations, keeping only
the state (no subscriber callback runs in between, so the ball position
left by one tick is the one read by the next). -/
noncomputable def ticks (s : BallTracker) : List ℝ → BallTracker
  | [] => s
  | dt :: rest => ticks (processTracking s dt).1 rest

/-- The pair of PD-filtered commands a Waiting or Found tick hands to
publishHeadJoint. -/
noncomputable def tickTargets (s : BallTracker) (st : TrackingStatus) (dt : ℝ) : ℝ × ℝ :=
  (pdTarget (trackErrors s st).1 s.current_ball_pan_ dt,
   pdTarget (trackErrors s st).2.1 s.current_ball_tilt_ dt)

section ShapeLemmas

variable (s : BallTracker) (dt : ℝ)

theorem processTracking_inactive (h : s.on_tracking_ = false) :
    processTracking s dt =
      ({ s with ball_position_ := { s.ball_position_ with z := 0 }
                count_not_found_ := 0 },
        [], TrackingStatus.NotFound) := by
  simp [processTracking, h]

theorem processTracking_found (h1 : s.on_tracking_ = true)
    (h2 : 0 < s.ball_position_.z) :
    processTracking s dt = trackEmit s 0 TrackingStatus.Found dt := by
  simp [processTracking, h1, not_le.mpr h2]

theorem processTracking_waiting (h1 : s.on_tracking_ = true)
    (h2 : s.ball_position_.z ≤ 0)
    (h3 : s.count_not_found_ + 1 < WAITING_THRESHOLD)
    (h4 : s.tracking_status_ = TrackingStatus.Found ∨
          s.tracking_status_ = TrackingStatus.Waiting) :
    processTracking s dt =
      trackEmit s (s.count_not_found_ + 1) TrackingStatus.Waiting dt := by
  simp [processTracking, h1, h2, h3, h4]

theorem processTracking_notfound_early (h1 : s.on_tracking_ = true)
    (h2 : s.ball_position_.z ≤ 0)
    (h3 : s.count_not_found_ + 1 < WAITING_THRESHOLD)
    (h4 : ¬(s.tracking_status_ = TrackingStatus.Found ∨
            s.tracking_status_ = TrackingStatus.Waiting)) :
    processTracking s dt =
      ({ s with count_not_found_ := s.count_not_found_ + 1
                tracking_status_ := TrackingStatus.NotFound },
        [], TrackingStatus.NotFound) := by
  simp [processTracking, h1, h2, h3, h4]

theorem processTracking_scan (h1 : s.on_tracking_ = true)
    (h2 : s.ball_position_.z ≤ 0)
    (h3 : NOT_FOUND_THRESHOLD < s.count_not_found_ + 1) :
    processTracking s dt =
      ({ s with count_not_found_ := 0
                tracking_status_ := TrackingStatus.NotFound },
        scanBall s, TrackingStatus.NotFound) := by
  have h3' : ¬(s.count_not_found_ + 1 < WAITING_THRESHOLD) := by
    simp only [NOT_FOUND_THRESHOLD] at h3
    simp only [WAITING_THRESHOLD]
    omega
  simp [processTracking, h1, h2, h3, h3']

theorem processTracking_notfound_mid (h1 : s.on_tracking_ = true)
    (h2 : s.ball_position_.z ≤ 0)
    (h3 : ¬(s.count_not_found_ + 1 < WAITING_THRESHOLD))
    (h4 : ¬(NOT_FOUND_THRESHOLD < s.count_not_found_ + 1)) :
    processTracking s dt =
      ({ s with count_not_found_ := s.count_not_found_ + 1
                tracking_status_ := TrackingStatus.NotFound },
        [], TrackingStatus.NotFound) := by
  simp [processTracking, h1, h2, h3, h4]

theorem on_tracking_true_of_not_false (h : ¬s.on_tracking_ = false) :
    s.on_tracking_ = true := by
  revert h
  cases s.on_tracking_ <;> simp

end ShapeLemmas

/-- The value of count_not_found_ after one call of processTracking, for
every starting state. -/
theorem count_after (s : BallTracker) (dt : ℝ) :
    (processTracking s dt).1.count_not_found_ =
      if s.on_tracking_ = false then 0
      else if s.ball_position_.z ≤ 0 then
        (if NOT_FOUND_THRESHOLD < s.count_not_found_ + 1 then 0
         else s.count_not_found_ + 1)
      else 0 := by
  by_cases hon : s.on_tracking_ = false
  · rw [processTracking_inactive s dt hon, if_pos hon]
  · have hon' := on_tracking_true_of_not_false s hon
    rw [if_neg hon]
    by_cases hz : s.ball_position_.z ≤ 0
    · rw [if_pos hz]
      by_cases h3 : s.count_not_found_ + 1 < WAITING_THRESHOLD
      · have hbig : ¬NOT_FOUND_THRESHOLD < s.count_not_found_ + 1 := by
          simp only [WAITING_THRESHOLD] at h3
          simp only [NOT_FOUND_THRESHOLD]
          omega
        rw [if_neg hbig]
        by_cases h4 : s.tracking_status_ = TrackingStatus.Found ∨
            s.tracking_status_ = TrackingStatus.Waiting
        · rw [processTracking_waiting s dt hon' hz h3 h4]
          simp [trackEmit]
        · rw [processTracking_notfound_early s dt hon' hz h3 h4]
      · by_cases h5 : NOT_FOUND_THRESHOLD < s.count_not_found_ + 1
        · rw [processTracking_scan s dt hon' hz h5, if_pos h5]
        · rw [processTracking_notfound_mid s dt hon' hz h3 h5, if_neg h5]
    · have hz' : 0 < s.ball_position_.z := lt_of_not_le hz
      rw [processTracking_found s dt hon' hz', if_neg hz]
      simp [trackEmit]

/-- ScanRequest never appears in the output of publishHeadJoint. -/
theorem scanRequest_not_mem_publish (pan tilt : ℝ) :
    Command.ScanRequest ∉ publishHeadJoint pan tilt := by
  rw [publishHeadJoint]
  split
  · simp
  · simp

/-- Exactly when processTracking publishes the scan command. -/
theorem scan_mem_output (s : BallTracker) (dt : ℝ) :
    Command.ScanRequest ∈ (processTracking s dt).2.1 ↔
      (s.on_tracking_ = true ∧ s.ball_position_.z ≤ 0 ∧
        NOT_FOUND_THRESHOLD < s.count_not_found_ + 1 ∧ s.use_head_scan_ = true) := by
  by_cases hon : s.on_tracking_ = false
  · rw [processTracking_inactive s dt hon]
    simp [hon]
  · have hon' := on_tracking_true_of_not_false s hon
    by_cases hz : s.ball_position_.z ≤ 0
    · by_cases h3 : s.count_not_found_ + 1 < WAITING_THRESHOLD
      · have hbig : ¬NOT_FOUND_THRESHOLD < s.count_not_found_ + 1 := by
          simp only [WAITING_THRESHOLD] at h3
          simp only [NOT_FOUND_THRESHOLD]
          omega
        by_cases h4 : s.tracking_status_ = TrackingStatus.Found ∨
            s.tracking_status_ = TrackingStatus.Waiting
        · rw [processTracking_waiting s dt hon' hz h3 h4]
          simp [trackEmit, scanRequest_not_mem_publish, hbig]
        · rw [processTracking_notfound_early s dt hon' hz h3 h4]
          simp [hbig]
      · by_cases h5 : NOT_FOUND_THRESHOLD < s.count_not_found_ + 1
        · rw [processTracking_scan s dt hon' hz h5]
          cases hu : s.use_head_scan_ <;> simp [scanBall, hu, hon', hz, h5]
        · rw [processTracking_notfound_mid s dt hon' hz h3 h5]
          simp [h5]
    · have hz' : 0 < s.ball_position_.z := lt_of_not_le hz
      rw [processTracking_found s dt hon' hz']
      simp [trackEmit, scanRequest_not_mem_publish, hz]

/-- The returned status is Found exactly on active ticks with a positive
aggregated candidate size. -/
theorem found_status_iff (s : BallTracker) (dt : ℝ) :
    (processTracking s dt).2.2 = TrackingStatus.Found ↔
      (s.on_tracking_ = true ∧ 0 < s.ball_position_.z) := by
  by_cases hon : s.on_tracking_ = false
  · rw [processTracking_inactive s dt hon]
    simp [hon]
  · have hon' := on_tracking_true_of_not_false s hon
    by_cases hz : s.ball_position_.z ≤ 0
    · have hz2 : ¬(0 < s.ball_position_.z) := not_lt.mpr hz
      by_cases h3 : s.count_not_found_ + 1 < WAITING_THRESHOLD
      · by_cases h4 : s.tracking_status_ = TrackingStatus.Found ∨
            s.tracking_status_ = TrackingStatus.Waiting
        · rw [processTracking_waiting s dt hon' hz h3 h4]
          simp [trackEmit, hz2]
        · rw [processTracking_notfound_early s dt hon' hz h3 h4]
          simp [hz2]
      · by_cases h5 : NOT_FOUND_THRESHOLD < s.count_not_found_ + 1
        · rw [processTracking_scan s dt hon' hz h5]
          simp [hz2]
        · rw [processTracking_notfound_mid s dt hon' hz h3 h5]
          simp [hz2]
    · have hz' : 0 < s.ball_position_.z := lt_of_not_le hz
      rw [processTracking_found s dt hon' hz']
      simp [trackEmit, hon', hz']

/-- Every tick whose returned status is Waiting or Found takes the
trackEmit path of processTracking. -/
theorem emit_cases (s : BallTracker) (dt : ℝ)
    (h : (processTracking s dt).2.2 = TrackingStatus.Waiting ∨
         (processTracking s dt).2.2 = TrackingStatus.Found) :
    ∃ cnt, processTracking s dt = trackEmit s cnt ((processTracking s dt).2.2) dt := by
  by_cases hon : s.on_tracking_ = false
  · rw [processTracking_inactive s dt hon] at h
    simp at h
  · have hon' := on_tracking_true_of_not_false s hon
    by_cases hz : s.ball_position_.z ≤ 0
    · by_cases h3 : s.count_not_found_ + 1 < WAITING_THRESHOLD
      · by_cases h4 : s.tracking_status_ = TrackingStatus.Found ∨
            s.tracking_status_ = TrackingStatus.Waiting
        · refine ⟨s.count_not_found_ + 1, ?_⟩
          rw [processTracking_waiting s dt hon' hz h3 h4]
          simp [trackEmit]
        · rw [processTracking_notfound_early s dt hon' hz h3 h4] at h ⊢
          simp at h
      · by_cases h5 : NOT_FOUND_THRESHOLD < s.count_not_found_ + 1
        · rw [processTracking_scan s dt hon' hz h5] at h ⊢
          simp at h
        · rw [processTracking_notfound_mid s dt hon' hz h3 h5] at h ⊢
          simp at h
    · have hz' : 0 < s.ball_position_.z := lt_of_not_le hz
      refine ⟨0, ?_⟩
      rw [processTracking_found s dt hon' hz']
      simp [trackEmit]

/-- Iterating no-detection ticks from a Found or Waiting state with room
below the waiting threshold leaves the tracker in the Waiting state. -/
theorem waiting_run :
    ∀ (dts : List ℝ) (s : BallTracker),
      s.on_tracking_ = true → s.ball_position_.z ≤ 0 →
      (s.tracking_status_ = TrackingStatus.Found ∨
        s.tracking_status_ = TrackingStatus.Waiting) →
      s.count_not_found_ + dts.length < WAITING_THRESHOLD →
      dts ≠ [] →
      (ticks s dts).tracking_status_ = TrackingStatus.Waiting := by
  intro dts
  induction dts with
  | nil => intro s _ _ _ _ hne; exact absurd rfl hne
  | cons dt rest ih =>
    intro s h1 h2 h4 hlen _
    have h3 : s.count_not_found_ + 1 < WAITING_THRESHOLD := by
      simp only [List.length_cons] at hlen
      omega
    have hstep := processTracking_waiting s dt h1 h2 h3 h4
    have hpost : (processTracking s dt).1 =
        { s with count_not_found_ := s.count_not_found_ + 1
                 current_ball_pan_ := (trackErrors s TrackingStatus.Waiting).1
                 current_ball_tilt_ := (trackErrors s TrackingStatus.Waiting).2.1
                 current_ball_bottom_ := (trackErrors s TrackingStatus.Waiting).2.2
                 ball_position_ := { s.ball_position_ with z := 0 }
                 tracking_status_ := TrackingStatus.Waiting } := by
      rw [hstep]
      simp [trackEmit]
    cases rest with
    | nil =>
      show (ticks (processTracking s dt).1 []).tracking_status_ = TrackingStatus.Waiting
      rw [ticks, hpost]
    | cons dt2 rest2 =>
      show (ticks (processTracking s dt).1 (dt2 :: rest2)).tracking_status_ =
        TrackingStatus.Waiting
      apply ih
      · rw [hpost]
        exact h1
      · rw [hpost]
      · rw [hpost]
        exact Or.inr rfl
      · rw [hpost]
        show s.count_not_found_ + 1 + (dt2 :: rest2).length < WAITING_THRESHOLD
        simp only [List.length_cons] at hlen ⊢
        omega
      · simp

/-- One step of the callback loop agrees with the step of
List.argmax on the size field. -/
theorem argAux_eq_ballPosStep (held c : Point3) :
    List.argAux (fun b c => Point3.z c < Point3.z b) (some held) c =
      some (ballPosStep held c) := by
  rw [List.argAux, ballPosStep]
  show (if held.z < c.z then some c else some held) =
    some (if c.z ≤ held.z then held else c)
  by_cases h : held.z < c.z
  · rw [if_pos h, if_neg (not_le.mpr h)]
  · rw [if_neg h, if_pos (not_lt.mp h)]

/-- The candidate held after the callback loop is the first-seen maximum
of the previously held candidate followed by the reported circles. -/
theorem foldl_ballPosStep_argmax :
    ∀ (circles : List Point3) (held : Point3),
      some (circles.foldl ballPosStep held) =
        (held :: circles).argmax Point3.z := by
  intro circles
  induction circles with
  | nil =>
    intro held
    rfl
  | cons c rest ih =>
    intro held
    have key : (held :: c :: rest).argmax Point3.z =
        ((ballPosStep held c) :: rest).argmax Point3.z := by
      show List.foldl (List.argAux fun b c => Point3.z c < Point3.z b)
          (List.argAux (fun b c => Point3.z c < Point3.z b)
            (List.argAux (fun b c => Point3.z c < Point3.z b) none held) c) rest =
        List.foldl (List.argAux fun b c => Point3.z c < Point3.z b)
          (List.argAux (fun b c => Point3.z c < Point3.z b) none (ballPosStep held c)) rest
      have h1 : List.argAux (fun b c => Point3.z c < Point3.z b) none held = some held := rfl
      have h2 : List.argAux (fun b c => Point3.z c < Point3.z b) none (ballPosStep held c) =
          some (ballPosStep held c) := rfl
      rw [h1, h2, argAux_eq_ballPosStep]
    rw [List.foldl_cons, ih (ballPosStep held c), key]

/-- A state reached after 50 consecutive active no-detection ticks:
the streak counter sits at the scan threshold. -/
noncomputable def sTick50 : BallTracker :=
  { use_head_scan_ := true
    count_not_found_ := 50
    on_tracking_ := true
    current_ball_pan_ := 0
    current_ball_tilt_ := 0
    current_ball_bottom_ := 0
    tracking_status_ := TrackingStatus.NotFound
    ball_position_ := { x := 0, y := 0, z := 0 } }

/-- An active state in the Waiting status with zeroed memory and no
aggregated candidate. -/
noncomputable def sWait0 : BallTracker :=
  { use_head_scan_ := true
    count_not_found_ := 0
    on_tracking_ := true
    current_ball_pan_ := 0
    current_ball_tilt_ := 0
    current_ball_bottom_ := 0
    tracking_status_ := TrackingStatus.Waiting
    ball_position_ := { x := 0, y := 0, z := 0 } }

/-- Tracker state right after a start command. -/
noncomputable def traceStart : BallTracker :=
  (ballTrackerCommandCallback initTracker "start").1

/-- Tracker state after additionally receiving one detected circle at
the image center with size 10. -/
noncomputable def traceSeen : BallTracker :=
  ballPositionCallback traceStart [{ x := 0, y := 0, z := 10 }]

/-- Tracker state after additionally processing one tick (a Found
tick). -/
noncomputable def traceTicked : BallTracker :=
  (processTracking traceSeen 1).1

/-- Tracker state after additionally receiving a stop command: tracking
is inactive while tracking_status_ still holds Found and
current_ball_bottom_ still holds the last ball size. -/
noncomputable def traceStopped : BallTracker :=
  (ballTrackerCommandCallback traceTicked "stop").1

theorem traceSeen_eq :
    traceSeen =
      { use_head_scan_ := true
        count_not_found_ := 0
        on_tracking_ := true
        current_ball_pan_ := 0
        current_ball_tilt_ := 0
        current_ball_bottom_ := 0
        tracking_status_ := TrackingStatus.NotFound
        ball_position_ := { x := 0, y := 0, z := 10 } } := by
  have h1 : traceStart = { initTracker with on_tracking_ := true } := by
    simp [traceStart, ballTrackerCommandCallback, startTracking]
  rw [traceSeen, h1]
  simp only [ballPositionCallback, List.foldl_cons, List.foldl_nil, ballPosStep]
  norm_num [initTracker]

theorem traceTicked_eq :
    traceTicked =
      { use_head_scan_ := true
        count_not_found_ := 0
        on_tracking_ := true
        current_ball_pan_ := 0
        current_ball_tilt_ := 0
        current_ball_bottom_ := 10
        tracking_status_ := TrackingStatus.Found
        ball_position_ := { x := 0, y := 0, z := 0 } } := by
  rw [traceTicked, traceSeen_eq]
  rw [processTracking_found _ 1 rfl (by norm_num)]
  simp [trackEmit, trackErrors, Real.arctan_zero]

theorem traceStopped_eq :
    traceStopped =
      { use_head_scan_ := true
        count_not_found_ := 0
        on_tracking_ := false
        current_ball_pan_ := 0
        current_ball_tilt_ := 0
        current_ball_bottom_ := 10
        tracking_status_ := TrackingStatus.Found
        ball_position_ := { x := 0, y := 0, z := 0 } } := by
  rw [traceStopped, traceTicked_eq]
  simp [ballTrackerCommandCallback, stopTracking]

/-- C1 counterexample: a state reached by start, one centered detection,
one Found tick and a stop command is Inactive, yet the tick processed in
that state leaves the persistent tracking state at Found (not NotFound)
and leaves current_ball_bottom_ at 10 (not at its reset value 0). -/
theorem C1_counterexample :
    traceStopped.on_tracking_ = false ∧
    (processTracking traceStopped 1).1.tracking_status_ = TrackingStatus.Found ∧
    (processTracking traceStopped 1).1.current_ball_bottom_ = 10 ∧
    TrackingStatus.Found ≠ TrackingStatus.NotFound ∧ (10 : ℝ) ≠ 0 := by
  have hoff : traceStopped.on_tracking_ = false := by rw [traceStopped_eq]
  have hstep := processTracking_inactive traceStopped 1 hoff
  refine ⟨hoff, ?_, ?_, by simp, by norm_num⟩
  · rw [hstep]
    show traceStopped.tracking_status_ = TrackingStatus.Found
    rw [traceStopped_eq]
  · rw [hstep]
    show traceStopped.current_ball_bottom_ = 10
    rw [traceStopped_eq]

/-- C1 (amended): every tick processed while TrackingMode is Inactive
emits no command, returns NotFound, zeroes the aggregated candidate
scale and the not-found streak, and leaves the ControllerMemory fields
and the persistent tracking_status_ unchanged (not necessarily at their
reset values). -/
theorem C1_inactive_tick (s : BallTracker) (dt : ℝ)
    (h : s.on_tracking_ = false) :
    (processTracking s dt).2.1 = [] ∧
    (processTracking s dt).2.2 = TrackingStatus.NotFound ∧
    (processTracking s dt).1.ball_position_.z = 0 ∧
    (processTracking s dt).1.count_not_found_ = 0 ∧
    (processTracking s dt).1.current_ball_pan_ = s.current_ball_pan_ ∧
    (processTracking s dt).1.current_ball_tilt_ = s.current_ball_tilt_ ∧
    (processTracking s dt).1.current_ball_bottom_ = s.current_ball_bottom_ ∧
    (processTracking s dt).1.tracking_status_ = s.tracking_status_ := by
  rw [processTracking_inactive s dt h]
  exact ⟨rfl, rfl, rfl, rfl, rfl, rfl, rfl, rfl⟩

/-- C1 witness: the amended statement evaluated at the constructor
state. -/
theorem C1_inactive_tick_witness :
    (processTracking initTracker 1).2.1 = [] ∧
    (processTracking initTracker 1).2.2 = TrackingStatus.NotFound ∧
    (processTracking initTracker 1).1.ball_position_.z = 0 ∧
    (processTracking initTracker 1).1.count_not_found_ = 0 ∧
    (processTracking initTracker 1).1.current_ball_pan_ =
      initTracker.current_ball_pan_ ∧
    (processTracking initTracker 1).1.current_ball_tilt_ =
      initTracker.current_ball_tilt_ ∧
    (processTracking initTracker 1).1.current_ball_bottom_ =
      initTracker.current_ball_bottom_ ∧
    (processTracking initTracker 1).1.tracking_status_ =
      initTracker.tracking_status_ :=
  C1_inactive_tick initTracker 1 rfl

/-- C10: after every completed tick the streak satisfies
count_not_found_ ≤ NOT_FOUND_THRESHOLD (it is a natural number, so
0 ≤ count_not_found_ holds by type), and an active no-detection tick
whose increment would pass the threshold resets it to zero. -/
theorem C10_streak_bounded (s : BallTracker) (dt : ℝ) :
    (processTracking s dt).1.count_not_found_ ≤ NOT_FOUND_THRESHOLD ∧
    (s.on_tracking_ = true → s.ball_position_.z ≤ 0 →
      NOT_FOUND_THRESHOLD < s.count_not_found_ + 1 →
      (processTracking s dt).1.count_not_found_ = 0) := by
  have hc := count_after s dt
  constructor
  · rw [hc]
    split_ifs with h1 h2 h3
    · exact Nat.zero_le _
    · exact Nat.zero_le _
    · omega
    · exact Nat.zero_le _
  · intro h1 h2 h3
    rw [hc, if_neg (by simp [h1]), if_pos h2, if_pos h3]

/-- C10 witness: the threshold-crossing tick from a streak of 50. -/
theorem C10_streak_bounded_witness :
    (processTracking sTick50 1).1.count_not_found_ ≤ NOT_FOUND_THRESHOLD ∧
    (processTracking sTick50 1).1.count_not_found_ = 0 := by
  have h := C10_streak_bounded sTick50 1
  exact ⟨h.1, h.2 rfl (by norm_num [sTick50]) (by norm_num [sTick50, NOT_FOUND_THRESHOLD])⟩

/-- C8 counterexample: an Active no-detection tick taken with the streak
at 50 resets the counter to 0, so the streak does not strictly increase
on that tick as the claim states. -/
theorem C8_counterexample :
    sTick50.on_tracking_ = true ∧
    sTick50.ball_position_.z ≤ 0 ∧
    (processTracking sTick50 1).1.count_not_found_ = 0 ∧
    ¬(sTick50.count_not_found_ < (processTracking sTick50 1).1.count_not_found_) := by
  have hc := count_after sTick50 1
  rw [if_neg (by norm_num [sTick50]), if_pos (by norm_num [sTick50]),
    if_pos (by norm_num [sTick50, NOT_FOUND_THRESHOLD])] at hc
  refine ⟨rfl, by norm_num [sTick50], hc, ?_⟩
  rw [hc]
  norm_num [sTick50]

/-- C8 (amended): on an Active no-detection tick the streak increments
by exactly one as long as the incremented value stays at or below
NOT_FOUND_THRESHOLD; the no-detection tick whose increment passes the
threshold resets the streak to 0 instead, and an Active tick with a
valid detection resets it to exactly 0. -/
theorem C8_streak_steps (s : BallTracker) (dt : ℝ)
    (h1 : s.on_tracking_ = true) :
    (s.ball_position_.z ≤ 0 → s.count_not_found_ + 1 ≤ NOT_FOUND_THRESHOLD →
      (processTracking s dt).1.count_not_found_ = s.count_not_found_ + 1 ∧
      s.count_not_found_ < (processTracking s dt).1.count_not_found_) ∧
    (s.ball_position_.z ≤ 0 → NOT_FOUND_THRESHOLD < s.count_not_found_ + 1 →
      (processTracking s dt).1.count_not_found_ = 0) ∧
    (0 < s.ball_position_.z →
      (processTracking s dt).1.count_not_found_ = 0) := by
  have hc := count_after s dt
  rw [if_neg (by simp [h1])] at hc
  refine ⟨?_, ?_, ?_⟩
  · intro h2 h3
    rw [hc, if_pos h2, if_neg (by omega)]
    omega
  · intro h2 h3
    rw [hc, if_pos h2, if_pos h3]
  · intro h2
    rw [hc, if_neg (not_le.mpr h2)]

/-- C8 witness: a first no-detection tick takes the streak from 0
to 1. -/
theorem C8_streak_steps_witness :
    (processTracking sWait0 1).1.count_not_found_ = sWait0.count_not_found_ + 1 ∧
    sWait0.count_not_found_ < (processTracking sWait0 1).1.count_not_found_ :=
  (C8_streak_steps sWait0 1 rfl).1 (by norm_num [sWait0])
    (by norm_num [sWait0, NOT_FOUND_THRESHOLD])

/-- C4: during Active tracking a ScanRequest is published exactly on the
ticks where there is no valid detection, the streak sits at or above
NOT_FOUND_THRESHOLD, and use_head_scan_ is enabled; such a tick
publishes the ScanRequest as its only message and resets the streak to
zero (so the streak must climb past the threshold again before the next
one), and no ScanRequest is ever published while use_head_scan_ is
false. -/
theorem C4_scan_policy (s : BallTracker) (dt : ℝ) :
    (Command.ScanRequest ∈ (processTracking s dt).2.1 ↔
      (s.on_tracking_ = true ∧ s.ball_position_.z ≤ 0 ∧
        NOT_FOUND_THRESHOLD < s.count_not_found_ + 1 ∧ s.use_head_scan_ = true)) ∧
    (s.on_tracking_ = true → s.ball_position_.z ≤ 0 →
      NOT_FOUND_THRESHOLD < s.count_not_found_ + 1 →
      ((processTracking s dt).1.count_not_found_ = 0 ∧
        (s.use_head_scan_ = true →
          (processTracking s dt).2.1 = [Command.ScanRequest]))) ∧
    (s.use_head_scan_ = false →
      Command.ScanRequest ∉ (processTracking s dt).2.1) := by
  refine ⟨scan_mem_output s dt, ?_, ?_⟩
  · intro h1 h2 h3
    constructor
    · have hc := count_after s dt
      rw [if_neg (by simp [h1]), if_pos h2, if_pos h3] at hc
      exact hc
    · intro hu
      rw [processTracking_scan s dt h1 h2 h3]
      simp [scanBall, hu]
  · intro hu hmem
    have h := (scan_mem_output s dt).mp hmem
    rw [hu] at h
    simp at h

/-- C4 witness: the tick at streak 50 with scanning enabled publishes
exactly one ScanRequest and resets the streak. -/
theorem C4_scan_policy_witness :
    Command.ScanRequest ∈ (processTracking sTick50 1).2.1 ∧
    (processTracking sTick50 1).1.count_not_found_ = 0 ∧
    (processTracking sTick50 1).2.1 = [Command.ScanRequest] := by
  have h := C4_scan_policy sTick50 1
  have h2 := h.2.1 rfl (by norm_num [sTick50])
    (by norm_num [sTick50, NOT_FOUND_THRESHOLD])
  exact ⟨h.1.mpr ⟨rfl, by norm_num [sTick50],
    by norm_num [sTick50, NOT_FOUND_THRESHOLD], rfl⟩, h2.1, h2.2 rfl⟩

/-- C9: if some Active tick returns Found, then after any k consecutive
further ticks with no valid detection, 1 ≤ k ≤ WAITING_THRESHOLD - 1,
the persistent tracking state is Waiting. -/
theorem C9_found_then_waiting (s0 : BallTracker) (dt0 : ℝ) (dts : List ℝ)
    (hF : (processTracking s0 dt0).2.2 = TrackingStatus.Found)
    (hk1 : 1 ≤ dts.length) (hk2 : dts.length ≤ WAITING_THRESHOLD - 1) :
    (ticks (processTracking s0 dt0).1 dts).tracking_status_ =
      TrackingStatus.Waiting := by
  obtain ⟨hon, hz⟩ := (found_status_iff s0 dt0).mp hF
  have hstep := processTracking_found s0 dt0 hon hz
  have hpost : (processTracking s0 dt0).1 =
      { s0 with count_not_found_ := 0
                current_ball_pan_ := (trackErrors s0 TrackingStatus.Found).1
                current_ball_tilt_ := (trackErrors s0 TrackingStatus.Found).2.1
                current_ball_bottom_ := (trackErrors s0 TrackingStatus.Found).2.2
                ball_position_ := { s0.ball_position_ with z := 0 }
                tracking_status_ := TrackingStatus.Found } := by
    rw [hstep]
    simp [trackEmit]
  apply waiting_run
  · rw [hpost]
    exact hon
  · rw [hpost]
  · rw [hpost]
    exact Or.inl rfl
  · rw [hpost]
    show 0 + dts.length < WAITING_THRESHOLD
    simp only [WAITING_THRESHOLD] at hk2 ⊢
    omega
  · intro hnil
    rw [hnil] at hk1
    simp at hk1

/-- C9 witness: a Found tick on a centered size-10 detection followed by
one no-detection tick ends in Waiting. -/
theorem C9_found_then_waiting_witness :
    (processTracking traceSeen 1).2.2 = TrackingStatus.Found ∧
    (ticks (processTracking traceSeen 1).1 [(1 : ℝ)]).tracking_status_ =
      TrackingStatus.Waiting := by
  have hF : (processTracking traceSeen 1).2.2 = TrackingStatus.Found := by
    rw [traceSeen_eq, processTracking_found _ 1 rfl (by norm_num)]
    simp [trackEmit]
  exact ⟨hF, C9_found_then_waiting traceSeen 1 [1] hF (by simp)
    (by norm_num [WAITING_THRESHOLD])⟩

/-- An active Found-status state with remembered pan error 1 and no
aggregated candidate, about to take a Waiting (coasting) tick. -/
noncomputable def sCoast : BallTracker :=
  { use_head_scan_ := true
    count_not_found_ := 0
    on_tracking_ := true
    current_ball_pan_ := 1
    current_ball_tilt_ := 0
    current_ball_bottom_ := 0
    tracking_status_ := TrackingStatus.Found
    ball_position_ := { x := 0, y := 0, z := 0 } }

/-- C2 counterexample: a Waiting tick with dt = -1 and remembered pan
error 1 publishes the pan command 0.537, while P times the axis error
is 0.75 * 0.7 = 0.525: the derivative term is not treated as zero for
negative dt. -/
theorem C2_counterexample :
    (processTracking sCoast (-1)).2.1 = [Command.AngleOffset 0.537 0] ∧
    (0.537 : ℝ) ≠ p_gain * (sCoast.current_ball_pan_ * 0.7) := by
  have hx : pdTarget (sCoast.current_ball_pan_ * 0.7) sCoast.current_ball_pan_ (-1)
      = 0.537 := by
    rw [pdTarget, p_gain, d_gain]
    norm_num [sCoast]
  have hy : pdTarget (sCoast.current_ball_tilt_ * 0.7) sCoast.current_ball_tilt_ (-1)
      = 0 := by
    rw [pdTarget, p_gain, d_gain]
    norm_num [sCoast]
  have hmin : ¬(|(0.537 : ℝ)| < 1 * Real.pi / 180 ∧ |(0 : ℝ)| < 1 * Real.pi / 180) := by
    rintro ⟨hlt, -⟩
    rw [abs_of_pos (by norm_num)] at hlt
    have hπ := Real.pi_lt_d2
    linarith
  constructor
  · rw [processTracking_waiting sCoast (-1) rfl (by norm_num [sCoast])
      (by norm_num [sCoast, WAITING_THRESHOLD]) (Or.inl rfl)]
    simp only [trackEmit, trackErrors]
    rw [hx, hy]
    show publishHeadJoint 0.537 0 = [Command.AngleOffset 0.537 0]
    simp only [publishHeadJoint]
    rw [if_neg hmin]
  · norm_num [p_gain, sCoast]

/-- C2 (amended): on every Waiting or Found tick the published command
for each axis is P times the error plus D times (error - previous) / dt
with no guard on dt; for negative dt the derivative term is nonzero
whenever the error differs from the remembered one, so the command does
not equal P times the error.  (dt = 0 produces an IEEE division by zero
in the C++ code; in this real-number model division by zero is the
Lean convention 0.) -/
theorem C2_pd_unguarded (s : BallTracker) (dt : ℝ)
    (h : (processTracking s dt).2.2 = TrackingStatus.Waiting ∨
         (processTracking s dt).2.2 = TrackingStatus.Found) :
    ((processTracking s dt).2.1 =
      publishHeadJoint (tickTargets s ((processTracking s dt).2.2) dt).1
        (tickTargets s ((processTracking s dt).2.2) dt).2) ∧
    (∀ e prev, dt < 0 → e ≠ prev → pdTarget e prev dt ≠ e * p_gain) := by
  constructor
  · obtain ⟨cnt, hE⟩ := emit_cases s dt h
    rw [hE]
    simp [trackEmit, tickTargets]
  · intro e prev hdt hne heq
    rw [pdTarget] at heq
    have hnum : e - prev ≠ 0 := sub_ne_zero_of_ne hne
    have hterm : ((e - prev) / dt) * d_gain ≠ 0 :=
      mul_ne_zero (div_ne_zero hnum (ne_of_lt hdt)) (by norm_num [d_gain])
    exact hterm (by linarith)

/-- C2 witness: the amended statement evaluated on the concrete Waiting
tick with dt = -1. -/
theorem C2_pd_unguarded_witness :
    ((processTracking sCoast (-1)).2.1 =
      publishHeadJoint (tickTargets sCoast ((processTracking sCoast (-1)).2.2) (-1)).1
        (tickTargets sCoast ((processTracking sCoast (-1)).2.2) (-1)).2) ∧
    pdTarget 0.7 1 (-1) ≠ (0.7 : ℝ) * p_gain := by
  have hW : (processTracking sCoast (-1)).2.2 = TrackingStatus.Waiting := by
    rw [processTracking_waiting sCoast (-1) rfl (by norm_num [sCoast])
      (by norm_num [sCoast, WAITING_THRESHOLD]) (Or.inl rfl)]
    simp [trackEmit]
  have h := C2_pd_unguarded sCoast (-1) (Or.inl hW)
  exact ⟨h.1, h.2 0.7 1 (by norm_num) (by norm_num)⟩

/-- C5: on every tick whose status is Waiting or Found, the head-joint
command is suppressed exactly when both PD-filtered axes are inside the
one-degree deadband; otherwise the AngleOffset carrying both filtered
values is published. -/
theorem C5_deadband (s : BallTracker) (dt : ℝ)
    (h : (processTracking s dt).2.2 = TrackingStatus.Waiting ∨
         (processTracking s dt).2.2 = TrackingStatus.Found) :
    ((|(tickTargets s ((processTracking s dt).2.2) dt).1| < 1 * Real.pi / 180 ∧
      |(tickTargets s ((processTracking s dt).2.2) dt).2| < 1 * Real.pi / 180) →
      (processTracking s dt).2.1 = []) ∧
    (¬(|(tickTargets s ((processTracking s dt).2.2) dt).1| < 1 * Real.pi / 180 ∧
       |(tickTargets s ((processTracking s dt).2.2) dt).2| < 1 * Real.pi / 180) →
      (processTracking s dt).2.1 =
        [Command.AngleOffset (tickTargets s ((processTracking s dt).2.2) dt).1
          (tickTargets s ((processTracking s dt).2.2) dt).2]) := by
  obtain ⟨cnt, hE⟩ := emit_cases s dt h
  have hout : (processTracking s dt).2.1 =
      publishHeadJoint (tickTargets s ((processTracking s dt).2.2) dt).1
        (tickTargets s ((processTracking s dt).2.2) dt).2 := by
    rw [hE]
    simp [trackEmit, tickTargets]
  rw [hout]
  constructor
  · intro hcond
    simp only [publishHeadJoint]
    rw [if_pos hcond]
  · intro hcond
    simp only [publishHeadJoint]
    rw [if_neg hcond]

/-- C5 witness: a Waiting tick with zeroed memory produces filtered
commands 0, 0, inside the deadband, and publishes nothing. -/
theorem C5_deadband_witness :
    (processTracking sWait0 1).2.1 = [] := by
  have hW : (processTracking sWait0 1).2.2 = TrackingStatus.Waiting := by
    rw [processTracking_waiting sWait0 1 rfl (by norm_num [sWait0])
      (by norm_num [sWait0, WAITING_THRESHOLD]) (Or.inr rfl)]
    simp [trackEmit]
  have ht : tickTargets sWait0 ((processTracking sWait0 1).2.2) 1 = (0, 0) := by
    rw [hW]
    simp only [tickTargets, trackErrors, pdTarget]
    norm_num [sWait0]
  apply (C5_deadband sWait0 1 (Or.inl hW)).1
  rw [ht]
  constructor <;> · rw [abs_zero]; positivity

/-- A tracking state whose last raw detection is centered (x = 0, y = 0,
size 5) while ControllerMemory still remembers a pan error of 2. -/
noncomputable def sStopC : BallTracker :=
  { use_head_scan_ := true
    count_not_found_ := 0
    on_tracking_ := true
    current_ball_pan_ := 2
    current_ball_tilt_ := 0
    current_ball_bottom_ := 5
    tracking_status_ := TrackingStatus.Found
    ball_position_ := { x := 0, y := 0, z := 5 } }

/-- C6 counterexample: a stop command issued while the last raw
detection is centered publishes no AngleOffset at all (the final
centering command goes through publishHeadJoint, whose one-degree
deadband suppresses it), contradicting that one final AngleOffset is
always emitted. -/
theorem C6_counterexample :
    sStopC.current_ball_pan_ = 2 ∧
    (stopTracking sStopC).1.on_tracking_ = false ∧
    (stopTracking sStopC).2 = [] := by
  have h0 : publishHeadJoint 0 0 = [] := by
    simp only [publishHeadJoint]
    rw [if_pos]
    exact ⟨by rw [abs_zero]; positivity, by rw [abs_zero]; positivity⟩
  refine ⟨rfl, rfl, ?_⟩
  have h1 : (stopTracking sStopC).2 = publishHeadJoint 0 0 := by
    simp only [stopTracking]
    norm_num [sStopC, Real.arctan_zero]
  rw [h1, h0]

/-- C6 (amended): a stop command clears the tracking mode, leaves
ControllerMemory untouched, and publishes at most one final AngleOffset
computed directly from the last raw detection by the field-of-view
mapping, independent of the ControllerMemory contents; the command is
suppressed exactly when both mapped axes are inside the one-degree
deadband. -/
theorem C6_stop_behavior (s : BallTracker) :
    (stopTracking s).1.on_tracking_ = false ∧
    (stopTracking s).1.current_ball_pan_ = s.current_ball_pan_ ∧
    (stopTracking s).1.current_ball_tilt_ = s.current_ball_tilt_ ∧
    (stopTracking s).1.current_ball_bottom_ = s.current_ball_bottom_ ∧
    (∀ p t b, (stopTracking { s with current_ball_pan_ := p
                                     current_ball_tilt_ := t
                                     current_ball_bottom_ := b }).2 =
      (stopTracking s).2) ∧
    ((|Real.arctan (s.ball_position_.x * Real.tan FOV_WIDTH)| < 1 * Real.pi / 180 ∧
      |Real.arctan (s.ball_position_.y * Real.tan FOV_HEIGHT)| < 1 * Real.pi / 180) →
      (stopTracking s).2 = []) ∧
    (¬(|Real.arctan (s.ball_position_.x * Real.tan FOV_WIDTH)| < 1 * Real.pi / 180 ∧
       |Real.arctan (s.ball_position_.y * Real.tan FOV_HEIGHT)| < 1 * Real.pi / 180) →
      (stopTracking s).2 =
        [Command.AngleOffset (-Real.arctan (s.ball_position_.x * Real.tan FOV_WIDTH))
          (-Real.arctan (s.ball_position_.y * Real.tan FOV_HEIGHT))]) := by
  refine ⟨rfl, rfl, rfl, rfl, fun p t b => rfl, ?_, ?_⟩
  · intro hcond
    show publishHeadJoint (-Real.arctan (s.ball_position_.x * Real.tan FOV_WIDTH))
      (-Real.arctan (s.ball_position_.y * Real.tan FOV_HEIGHT)) = []
    simp only [publishHeadJoint]
    rw [if_pos]
    exact ⟨by rw [abs_neg]; exact hcond.1, by rw [abs_neg]; exact hcond.2⟩
  · intro hcond
    show publishHeadJoint (-Real.arctan (s.ball_position_.x * Real.tan FOV_WIDTH))
      (-Real.arctan (s.ball_position_.y * Real.tan FOV_HEIGHT)) =
      [Command.AngleOffset (-Real.arctan (s.ball_position_.x * Real.tan FOV_WIDTH))
        (-Real.arctan (s.ball_position_.y * Real.tan FOV_HEIGHT))]
    simp only [publishHeadJoint]
    have hneg : ¬(|(-Real.arctan (s.ball_position_.x * Real.tan FOV_WIDTH))| <
        1 * Real.pi / 180 ∧
        |(-Real.arctan (s.ball_position_.y * Real.tan FOV_HEIGHT))| <
        1 * Real.pi / 180) := by
      rw [abs_neg, abs_neg]
      exact hcond
    rw [if_neg hneg]

/-- C6 witness: the amended statement at the centered-detection state:
tracking stops, memory is untouched, and the final command is
suppressed. -/
theorem C6_stop_behavior_witness :
    (stopTracking sStopC).1.on_tracking_ = false ∧
    (stopTracking sStopC).1.current_ball_pan_ = sStopC.current_ball_pan_ ∧
    (stopTracking sStopC).2 = [] := by
  have h := C6_stop_behavior sStopC
  refine ⟨h.1, h.2.1, h.2.2.2.2.2.1 ?_⟩
  constructor <;> · simp [sStopC, Real.arctan_zero]; positivity

/-- An active state with a fresh detection at x = 0.5, y = 0 of
size 10. -/
noncomputable def sBall05 : BallTracker :=
  { use_head_scan_ := true
    count_not_found_ := 0
    on_tracking_ := true
    current_ball_pan_ := 0
    current_ball_tilt_ := 0
    current_ball_bottom_ := 0
    tracking_status_ := TrackingStatus.NotFound
    ball_position_ := { x := 0.5, y := 0, z := 10 } }

/-- C3 counterexample: the configured angle fed to tan by the code is
FOV_WIDTH = 26.4 degrees, not the half-angle 13.2 degrees the claim
names, and the resulting pan error at x = 0.5 differs from the value
the claimed half-angle mapping would give. -/
theorem C3_counterexample :
    (processTracking sBall05 1).1.current_ball_pan_ =
      -Real.arctan ((0.5 : ℝ) * Real.tan FOV_WIDTH) ∧
    FOV_WIDTH ≠ 13.2 * Real.pi / 180 ∧
    -Real.arctan ((0.5 : ℝ) * Real.tan FOV_WIDTH) ≠
      -Real.arctan ((0.5 : ℝ) * Real.tan (13.2 * Real.pi / 180)) := by
  have hπ := Real.pi_pos
  refine ⟨?_, ?_, ?_⟩
  · rw [processTracking_found sBall05 1 rfl (by norm_num [sBall05])]
    simp [trackEmit, trackErrors, sBall05]
  · rw [FOV_WIDTH]
    intro h
    linarith
  · intro heq
    have h2 : Real.arctan ((0.5 : ℝ) * Real.tan FOV_WIDTH) =
        Real.arctan ((0.5 : ℝ) * Real.tan (13.2 * Real.pi / 180)) :=
      neg_injective heq
    have h3 := Real.arctan_injective h2
    have h4 : Real.tan FOV_WIDTH = Real.tan (13.2 * Real.pi / 180) := by
      linarith
    have hA : 13.2 * Real.pi / 180 ∈ Set.Ioo (-(Real.pi / 2)) (Real.pi / 2) := by
      constructor <;> [linarith; linarith]
    have hW : FOV_WIDTH ∈ Set.Ioo (-(Real.pi / 2)) (Real.pi / 2) := by
      rw [FOV_WIDTH]
      constructor <;> [linarith; linarith]
    have hlt : 13.2 * Real.pi / 180 < FOV_WIDTH := by
      rw [FOV_WIDTH]
      linarith
    exact absurd h4.symm (ne_of_lt (Real.strictMonoOn_tan hA hW hlt))

/-- C3 (amended): on every Found tick the raw errors are
pan_error = -arctan(x * tan(FOV_WIDTH)) and
tilt_error = -arctan(y * tan(FOV_HEIGHT)) with the configured constants
FOV_WIDTH = 26.4 degrees and FOV_HEIGHT = 21.6 degrees in radians (the
angles whose halves are 13.2 and 10.8 degrees); with zero prior memory
the PD command for the pan axis tends to P times pan_error as dt grows
without bound. -/
theorem C3_found_mapping (s : BallTracker) (dt : ℝ)
    (h1 : s.on_tracking_ = true) (h2 : 0 < s.ball_position_.z) :
    (processTracking s dt).1.current_ball_pan_ =
      -Real.arctan (s.ball_position_.x * Real.tan FOV_WIDTH) ∧
    (processTracking s dt).1.current_ball_tilt_ =
      -Real.arctan (s.ball_position_.y * Real.tan FOV_HEIGHT) ∧
    FOV_WIDTH = 26.4 * Real.pi / 180 ∧
    FOV_HEIGHT = 21.6 * Real.pi / 180 ∧
    (s.current_ball_pan_ = 0 →
      Filter.Tendsto
        (fun t => pdTarget (-Real.arctan (s.ball_position_.x * Real.tan FOV_WIDTH))
          s.current_ball_pan_ t)
        Filter.atTop
        (nhds (-Real.arctan (s.ball_position_.x * Real.tan FOV_WIDTH) * p_gain))) := by
  refine ⟨?_, ?_, rfl, rfl, ?_⟩
  · rw [processTracking_found s dt h1 h2]
    simp [trackEmit, trackErrors]
  · rw [processTracking_found s dt h1 h2]
    simp [trackEmit, trackErrors]
  · intro hzero
    rw [hzero]
    have hfun : (fun t => pdTarget
        (-Real.arctan (s.ball_position_.x * Real.tan FOV_WIDTH)) 0 t) =
        fun t => -Real.arctan (s.ball_position_.x * Real.tan FOV_WIDTH) * p_gain +
          (-Real.arctan (s.ball_position_.x * Real.tan FOV_WIDTH) / t) * d_gain := by
      funext t
      rw [pdTarget, sub_zero]
    rw [hfun]
    have hdiv : Filter.Tendsto
        (fun t : ℝ => -Real.arctan (s.ball_position_.x * Real.tan FOV_WIDTH) / t)
        Filter.atTop (nhds 0) :=
      Filter.Tendsto.div_atTop tendsto_const_nhds Filter.tendsto_id
    have hmul := hdiv.mul_const d_gain
    have hadd := (tendsto_const_nhds :
        Filter.Tendsto
          (fun _ : ℝ => -Real.arctan (s.ball_position_.x * Real.tan FOV_WIDTH) * p_gain)
          Filter.atTop
          (nhds (-Real.arctan (s.ball_position_.x * Real.tan FOV_WIDTH) * p_gain))).add
      hmul
    simpa using hadd

/-- C3 witness: the amended statement at the detection x = 0.5,
size 10 with zero prior memory. -/
theorem C3_found_mapping_witness :
    (processTracking sBall05 1).1.current_ball_pan_ =
      -Real.arctan (sBall05.ball_position_.x * Real.tan FOV_WIDTH) ∧
    (processTracking sBall05 1).1.current_ball_tilt_ =
      -Real.arctan (sBall05.ball_position_.y * Real.tan FOV_HEIGHT) ∧
    FOV_WIDTH = 26.4 * Real.pi / 180 ∧
    FOV_HEIGHT = 21.6 * Real.pi / 180 ∧
    Filter.Tendsto
      (fun t => pdTarget (-Real.arctan (sBall05.ball_position_.x * Real.tan FOV_WIDTH))
        sBall05.current_ball_pan_ t)
      Filter.atTop
      (nhds (-Real.arctan (sBall05.ball_position_.x * Real.tan FOV_WIDTH) * p_gain)) := by
  have h := C3_found_mapping sBall05 1 rfl (by norm_num [sBall05])
  exact ⟨h.1, h.2.1, h.2.2.1, h.2.2.2.1, h.2.2.2.2 rfl⟩

/-- C7: the candidate retained by the callback is List.argmax of the
sizes over the held candidate followed by the reported sequence, i.e.
the largest size with ties resolved in favor of the first-seen one; a
single report replaces the held candidate exactly when its size is
strictly larger; and over a window that starts cleared (held size 0),
if any report has positive size, the retained candidate is the
first-seen maximum of the reported sequence itself. -/
theorem C7_best_of_window (s : BallTracker) (circles : List Point3) :
    (some ((ballPositionCallback s circles).ball_position_) =
      (s.ball_position_ :: circles).argmax Point3.z) ∧
    (∀ c, (ballPositionCallback s [c]).ball_position_ =
      if s.ball_position_.z < c.z then c else s.ball_position_) ∧
    (s.ball_position_.z = 0 → (∃ a ∈ circles, 0 < a.z) →
      some ((ballPositionCallback s circles).ball_position_) =
        circles.argmax Point3.z) := by
  refine ⟨?_, ?_, ?_⟩
  · exact foldl_ballPosStep_argmax circles s.ball_position_
  · intro c
    show List.foldl ballPosStep s.ball_position_ [c] = _
    simp only [List.foldl_cons, List.foldl_nil, ballPosStep]
    by_cases h : c.z ≤ s.ball_position_.z
    · rw [if_pos h, if_neg (not_lt.mpr h)]
    · rw [if_neg h, if_pos (lt_of_not_le h)]
  · rintro hz ⟨a, ha, haz⟩
    have h1 := foldl_ballPosStep_argmax circles s.ball_position_
    have hne : circles ≠ [] := by
      rintro rfl
      exact absurd ha (List.not_mem_nil a)
    obtain ⟨m, hm⟩ : ∃ m, circles.argmax Point3.z = some m := by
      cases hcm : circles.argmax Point3.z with
      | none => exact absurd (List.argmax_eq_none.mp hcm) hne
      | some m => exact ⟨m, rfl⟩
    have hle : Point3.z a ≤ Point3.z m :=
      List.le_of_mem_argmax ha (Option.mem_def.mpr hm)
    have hheld : Point3.z s.ball_position_ < Point3.z m := by
      show s.ball_position_.z < m.z
      rw [hz]
      calc (0 : ℝ) < a.z := haz
        _ ≤ m.z := hle
    rw [List.argmax_cons, hm] at h1
    have h1' : some (circles.foldl ballPosStep s.ball_position_) =
        if Point3.z s.ball_position_ < Point3.z m then some m
        else some s.ball_position_ := h1
    rw [if_pos hheld] at h1'
    show some (circles.foldl ballPosStep s.ball_position_) = circles.argmax Point3.z
    rw [h1', hm]

/-- The circles of a concrete tick window: sizes 3, 5, 5; the first
size-5 circle is the first-seen maximum. -/
noncomputable def circlesW : List Point3 :=
  [{ x := 1, y := 1, z := 3 }, { x := 2, y := 2, z := 5 }, { x := 3, y := 3, z := 5 }]

/-- C7 witness: on a cleared window the retained candidate is the
argmax of the reported circles, and a single larger report replaces the
held value. -/
theorem C7_best_of_window_witness :
    (some ((ballPositionCallback initTracker circlesW).ball_position_) =
      circlesW.argmax Point3.z) ∧
    (ballPositionCallback initTracker [{ x := 9, y := 9, z := 4 }]).ball_position_ =
      ({ x := 9, y := 9, z := 4 } : Point3) := by
  have h := C7_best_of_window initTracker circlesW
  constructor
  · exact h.2.2 rfl ⟨{ x := 1, y := 1, z := 3 }, List.mem_cons_self _ _, by norm_num⟩
  · have h2 := (C7_best_of_window initTracker
      [({ x := 9, y := 9, z := 4 } : Point3)]).2.1 { x := 9, y := 9, z := 4 }
    rw [h2, if_pos (by norm_num [initTracker])]

end robotis_op
